import Mathlib

/-!
Verification of the deterministic rules engine of the MMO_RPG repository.

Shallow embedding conventions:
* JavaScript numbers are modelled as exact rationals (`ℚ`); the generator
  core itself works on 64-bit integers modelled as `ℕ` with explicit
  `% 2 ^ 64` / `% 2 ^ 32` reductions, exactly as the BigInt code does.
* `Math.floor` is `Int.floor`, `Math.ceil` is `Int.ceil`, both cast back
  to `ℚ` where the code keeps working with numbers.
* The stateful `PRNG` class (`packages/rules-engine/src/prng.ts`) becomes
  explicit state passing: every draw returns the value together with the
  advanced state.
* `createHash('sha256')` is Node library code, not part of this
  repository; it is modelled as an abstract function bundle `Sha256Model`
  (full hex digest, and the numeric value of the first 16 hex digits used
  by the `PRNG` constructor).  No claim here depends on actual SHA-256
  values, only on the hash being a function of its input.
* Fallible code (`DeterministicPRNG.randInt`, `resolveCombatTurn`) returns
  `Except String`.
-/

/-- Generator state of the PCG generator in
`packages/rules-engine/src/prng.ts` (class `PRNG`): a 64-bit `state`
and an increment `inc`, both BigInt in the source. -/
structure PRNGState where
  state : ℕ
  inc : ℕ
deriving DecidableEq, Repr

/-- `PRNG.next` (prng.ts lines 31-37): PCG-XSH-RR step.  The source keeps
`state` in 64 bits via `& 0xffffffffffffffffn`; `rot = oldstate >> 59n` is
below 32 because `oldstate < 2^64`.  JavaScript's
`(xorshifted >>> rot) | (xorshifted << ((-rot) & 31))` on 32-bit lanes is
the rotate-right below; `(-rot) & 31 = (32 - rot) % 32` for `rot < 32`. -/
def pcgNext (s : PRNGState) : ℕ × PRNGState :=
  let oldstate := s.state
  let newstate := (oldstate * 6364136223846793005 + s.inc) % 2 ^ 64
  let xorshifted := (((oldstate >>> 18) ^^^ oldstate) >>> 27) % 2 ^ 32
  let rot := oldstate >>> 59
  let out := ((xorshifted >>> rot) ||| ((xorshifted <<< ((32 - rot) % 32)) % 2 ^ 32)) % 2 ^ 32
  (out, { s with state := newstate })

/-- `PRNG.random` (prng.ts lines 42-44): `this.next() / 0x100000000`. -/
def jsRandom (s : PRNGState) : ℚ × PRNGState :=
  let (k, s1) := pcgNext s
  ((k : ℚ) / 4294967296, s1)

/-- `Math.floor` on a JavaScript number, kept as a number. -/
def jsFloor (q : ℚ) : ℚ := (⌊q⌋ : ℚ)

/-- `Math.ceil` on a JavaScript number, kept as a number. -/
def jsCeil (q : ℚ) : ℚ := (⌈q⌉ : ℚ)

/-- `PRNG.randInt` (prng.ts lines 49-52): swaps the bounds when
`min > max`, then returns `Math.floor(random() * (max - min + 1)) + min`. -/
def randInt (min max : ℚ) (s : PRNGState) : ℚ × PRNGState :=
  let (lo, hi) := if min > max then (max, min) else (min, max)
  let (r, s1) := jsRandom s
  (jsFloor (r * (hi - lo + 1)) + lo, s1)

/-- `PRNG.randFloat` (prng.ts lines 57-60). -/
def randFloat (min max : ℚ) (s : PRNGState) : ℚ × PRNGState :=
  let (lo, hi) := if min > max then (max, min) else (min, max)
  let (r, s1) := jsRandom s
  (r * (hi - lo) + lo, s1)

/-- Sum of `numDice` draws of `randInt(1, sides)` - the roll loop of
`PRNG.rollDice` (prng.ts lines 76-79). -/
def rollDiceSum (numDice : ℕ) (sides : ℚ) (s : PRNGState) : ℚ × PRNGState :=
  match numDice with
  | 0 => (0, s)
  | n + 1 =>
    let (v, s1) := randInt 1 sides s
    let (rest, s2) := rollDiceSum n sides s1
    (v + rest, s2)

/-- `PRNG.rollDice` (prng.ts lines 65-88) for already-parsed notation
`NdM(+|-)K`: the regex parse of e.g. `"1d20"` yields
`numDice = 1, sides = 20, modifier = 0`; the body sums `numDice` draws of
`randInt(1, sides)`, applies the signed modifier and clamps at `≥ 0`
(`Math.max(0, total)`). -/
def rollDice (numDice : ℕ) (sides : ℚ) (modifier : ℚ) (s : PRNGState) : ℚ × PRNGState :=
  let (total, s1) := rollDiceSum numDice sides s
  (max 0 (total + modifier), s1)

/-- The external `crypto.createHash('sha256')`, abstracted: `digestHex` is
the full hex digest of a string, `head64` the numeric value of the first
16 hex digits of the digest (used by the `PRNG` string constructor,
prng.ts lines 14-17).  A 16-hex-digit value is below `2^64`. -/
structure Sha256Model where
  digestHex : String → String
  head64 : String → ℕ

/-- The `PRNG` constructor for a string seed (prng.ts lines 12-26):
`state` is the leading 64 bits of the seed's SHA-256 digest, `inc` is the
fixed constant `1013904223n`, and the generator is warmed up by one
discarded `next()` call. -/
def mkPRNG (h64 : ℕ) : PRNGState :=
  (pcgNext { state := h64 % 2 ^ 64, inc := 1013904223 }).2

/-- `createNamespacedSeed` (prng.ts lines 135-143):
`sha256(worldSeed ++ ":" ++ subsystem ++ ":" ++ entityId ++ ":" ++ turn)`
as a hex string. -/
def createNamespacedSeed (σ : Sha256Model) (worldSeed subsystem entityId : String)
    (turnNumber : ℕ) : String :=
  σ.digestHex (worldSeed ++ ":" ++ subsystem ++ ":" ++ entityId ++ ":" ++ toString turnNumber)

/-- `createSubsystemPRNG` (prng.ts lines 148-156): build a `PRNG` from the
namespaced seed (the constructor re-hashes the hex string and keeps the
first 16 hex digits as the state). -/
def createSubsystemPRNG (σ : Sha256Model) (worldSeed subsystem entityId : String)
    (turnNumber : ℕ) : PRNGState :=
  mkPRNG (σ.head64 (createNamespacedSeed σ worldSeed subsystem entityId turnNumber))

/-- First `n` raw `next()` outputs of a generator. -/
def nextStream (s : PRNGState) : ℕ → List ℕ
  | 0 => []
  | n + 1 =>
    let (k, s1) := pcgNext s
    k :: nextStream s1 n

/-- First `n` `random()` outputs of a generator. -/
def randomStream (s : PRNGState) : ℕ → List ℚ
  | 0 => []
  | n + 1 =>
    let (r, s1) := jsRandom s
    r :: randomStream s1 n

/-- `DeterministicPRNG.next` (the second, near-identical generator class,
found with combat/spawn services): identical PCG step except that the
rotation is written `(oldstate >> 59n) & 0x1Fn`. -/
def detNext (s : PRNGState) : ℕ × PRNGState :=
  let oldstate := s.state
  let newstate := (oldstate * 6364136223846793005 + s.inc) % 2 ^ 64
  let xorshifted := (((oldstate >>> 18) ^^^ oldstate) >>> 27) % 2 ^ 32
  let rot := (oldstate >>> 59) % 2 ^ 5
  let out := ((xorshifted >>> rot) ||| ((xorshifted <<< ((32 - rot) % 32)) % 2 ^ 32)) % 2 ^ 32
  (out, { s with state := newstate })

/-- `DeterministicPRNG.random`. -/
def detRandom (s : PRNGState) : ℚ × PRNGState :=
  let (k, s1) := detNext s
  ((k : ℚ) / 4294967296, s1)

/-- `DeterministicPRNG.randInt` (lines 42-48 of that class): unlike
`PRNG.randInt` it does NOT swap inverted bounds - it throws
`'min must be <= max'`. -/
def detRandInt (min max : ℚ) (s : PRNGState) : Except String (ℚ × PRNGState) :=
  if min > max then
    Except.error "min must be <= max"
  else
    let range := max - min + 1
    let (r, s1) := detRandom s
    Except.ok (jsFloor (r * range) + min, s1)

/-! ## Loot generator (`packages/rules-engine/src/loot.ts`) -/

/-- `Rarity` (shared-types `z.enum(['common','rare','epic','legendary'])`). -/
inductive Rarity where
  | common
  | rare
  | epic
  | legendary
deriving DecidableEq, Repr

/-- The fixed rarity ladder `['common','rare','epic','legendary']`
(loot.ts line 118). -/
def rarityOrder : List Rarity :=
  [Rarity.common, Rarity.rare, Rarity.epic, Rarity.legendary]

/-- `rarityOrder.indexOf(currentRarity)` on the fixed ladder. -/
def rarityIndex : Rarity → ℕ
  | Rarity.common => 0
  | Rarity.rare => 1
  | Rarity.epic => 2
  | Rarity.legendary => 3

/-- The fields of an `ItemArchetype` read by the loot generator:
`slug`, `rarity`, `slot`, `tags`. -/
structure ItemArchetype where
  slug : String
  rarity : Rarity
  slot : String
  tags : List String
deriving DecidableEq, Repr

/-- `LootContext` (loot.ts lines 16-24). -/
structure LootContext where
  sourceLevel : ℚ
  sourceName : String
  playerLevel : ℚ
  playerLuck : ℚ
  magicFind : ℚ
  worldSeed : String
  dropId : String
deriving DecidableEq, Repr

/-- One generated affix (loot.ts lines 9-13). -/
structure Affix where
  id : String
  name : String
  stats : List (String × ℚ)
deriving DecidableEq, Repr

/-- `LootDrop` (loot.ts lines 4-14). -/
structure LootDrop where
  archetypeSlug : String
  quantity : ℚ
  rarity : Rarity
  quality : Option ℚ
  affixes : Option (List Affix)
deriving DecidableEq, Repr

/-- The fixed per-tier upgrade chances `[0.3, 0.1, 0.02]` of loot.ts
line 123 (`common->rare, rare->epic, epic->legendary`); they do not
depend on the loot context. -/
def upgradeChances : List ℚ := [3/10, 1/10, 1/50]

/-- `upgradeRarity` (loot.ts lines 117-135).  The source loop
`for (i = currentIndex; i < 3; i++) { if (rng.random() < upgradeChances[i])
return rarityOrder[i+1]; else break; }` executes at most its first
iteration: a successful roll returns one tier up immediately, a failed
roll breaks.  Both branches consume exactly one draw. -/
def upgradeRarity (currentRarity : Rarity) (s : PRNGState) : Rarity × PRNGState :=
  let currentIndex := rarityIndex currentRarity
  if currentIndex < rarityOrder.length - 1 then
    let (r, s1) := jsRandom s
    if r < upgradeChances.getD currentIndex 0 then
      (rarityOrder.getD (currentIndex + 1) currentRarity, s1)
    else
      (currentRarity, s1)
  else
    (currentRarity, s)

/-- An affix template (loot.ts lines 221-225): per-stat `[min,max]`
ranges, kept in source order. -/
structure AffixTemplate where
  id : String
  name : String
  stats : List (String × ℚ × ℚ)
deriving DecidableEq, Repr

/-- `getAffixPool` (loot.ts lines 183-219): five base affixes plus the
slot-specific pools for `weapon`, `head`, `chest`, `ring`. -/
def getAffixPool (slot : String) (tags : List String) : List AffixTemplate :=
  let _ := tags
  let baseAffixes : List AffixTemplate :=
    [ ⟨"strength_boost", "of Strength", [("strength", 1, 5)]⟩,
      ⟨"dexterity_boost", "of Dexterity", [("dexterity", 1, 5)]⟩,
      ⟨"intelligence_boost", "of Intelligence", [("intelligence", 1, 5)]⟩,
      ⟨"vitality_boost", "of Vitality", [("vitality", 1, 5)]⟩,
      ⟨"luck_boost", "of Fortune", [("luck", 1, 3)]⟩ ]
  let slotAffixes : List AffixTemplate :=
    if slot = "weapon" then
      [ ⟨"damage_boost", "of Power", [("weaponDamage", 1, 8)]⟩,
        ⟨"critical_boost", "of Precision", [("criticalChance", 1, 5)]⟩,
        ⟨"speed_boost", "of Swiftness", [("attackSpeed", 5, 15)]⟩ ]
    else if slot = "head" then
      [ ⟨"mana_boost", "of the Mind", [("mana", 10, 30)]⟩,
        ⟨"wisdom_boost", "of Wisdom", [("wisdom", 1, 4)]⟩ ]
    else if slot = "chest" then
      [ ⟨"health_boost", "of Health", [("health", 20, 60)]⟩,
        ⟨"armor_boost", "of Protection", [("armor", 2, 8)]⟩ ]
    else if slot = "ring" then
      [ ⟨"resist_boost", "of Resistance", [("resistance", 1/20, 3/20)]⟩,
        ⟨"regen_boost", "of Regeneration", [("healthRegen", 1, 5)]⟩ ]
    else []
  baseAffixes ++ slotAffixes

/-- Roll the scaled stat values of one affix template
(`generateAffix`, loot.ts lines 230-251). -/
def generateAffixStats (entries : List (String × ℚ × ℚ)) (levelScale : ℚ)
    (s : PRNGState) : List (String × ℚ) × PRNGState :=
  match entries with
  | [] => ([], s)
  | (statName, lo, hi) :: rest =>
    let scaledMin := jsFloor (lo * levelScale)
    let scaledMax := jsFloor (hi * levelScale)
    let (v, s1) := randInt scaledMin scaledMax s
    let (tail, s2) := generateAffixStats rest levelScale s1
    ((statName, v) :: tail, s2)

/-- `generateAffix` (loot.ts lines 230-251): each stat range scales by
`1 + (sourceLevel - 1) * 0.1` and is rolled with `randInt`. -/
def generateAffix (template : AffixTemplate) (context : LootContext)
    (s : PRNGState) : Affix × PRNGState :=
  let levelScale := 1 + (context.sourceLevel - 1) * (1/10)
  let (stats, s1) := generateAffixStats template.stats levelScale s
  (⟨template.id, template.name, stats⟩, s1)

/-- The selection loop of `generateAffixes` (loot.ts lines 165-175):
while affixes remain to be generated and the pool is nonempty, `choice`
picks `pool[randInt(0, pool.length-1)]`, the chosen template is spliced
out of the pool (`indexOf` finds exactly the chosen index, templates
being distinct objects) and instantiated. -/
def affixLoop (count : ℕ) (pool : List AffixTemplate) (context : LootContext)
    (s : PRNGState) : List Affix × PRNGState :=
  match count with
  | 0 => ([], s)
  | c + 1 =>
    if pool.isEmpty then ([], s)
    else
      let (iq, s1) := randInt 0 ((pool.length : ℚ) - 1) s
      let idx := (⌊iq⌋).toNat
      let template := pool.getD idx ⟨"", "", []⟩
      let pool1 := pool.eraseIdx idx
      let (affix, s2) := generateAffix template context s1
      let (rest, s3) := affixLoop c pool1 context s2
      (affix :: rest, s3)

/-- `generateAffixes` (loot.ts lines 140-178): the affix count is rolled
from the final rarity (`rare: 1-2, epic: 2-3, legendary: 3-4`; `common`
rolls nothing), then `affixLoop` draws that many distinct templates. -/
def generateAffixes (archetype : ItemArchetype) (rarity : Rarity)
    (context : LootContext) (s : PRNGState) : List Affix × PRNGState :=
  let (maxAffixes, s1) :=
    match rarity with
    | Rarity.rare => randInt 1 2 s
    | Rarity.epic => randInt 2 3 s
    | Rarity.legendary => randInt 3 4 s
    | Rarity.common => (0, s)
  let availableAffixes := getAffixPool archetype.slot archetype.tags
  affixLoop (⌊maxAffixes⌋).toNat availableAffixes context s1

/-- `generateItemDrop` (loot.ts lines 66-112).  Draw order: base quality
`randFloat(0.8, 1.0)`; one gate roll against
`0.05 + luck*0.01 + max(0, sourceLevel-playerLevel)*0.02 + magicFind*0.01`
deciding whether `upgradeRarity` is attempted at all; on gate success one
`upgradeRarity` pass; then a rarity-dependent quality re-roll for
rare/epic/legendary; quality clamped to `[0.5, 1.5]`; affixes for
non-common drops. -/
def generateItemDrop (archetype : ItemArchetype) (context : LootContext)
    (s : PRNGState) : LootDrop × PRNGState :=
  let rarity0 := archetype.rarity
  let (quality0, s1) := randFloat (4/5) 1 s
  let luckBonus := context.playerLuck * (1/100)
  let magicFindBonus := context.magicFind * (1/100)
  let levelDiff := max 0 (context.sourceLevel - context.playerLevel)
  let upgradeChance := 1/20 + luckBonus + levelDiff * (1/50) + magicFindBonus
  let (g, s2) := jsRandom s1
  let (rarity, s3) :=
    if g < upgradeChance then upgradeRarity rarity0 s2 else (rarity0, s2)
  let (quality, s4) :=
    match rarity with
    | Rarity.rare => randFloat (9/10) (11/10) s3
    | Rarity.epic => randFloat 1 (6/5) s3
    | Rarity.legendary => randFloat (11/10) (13/10) s3
    | Rarity.common => (quality0, s3)
  let clampedQuality := max (1/2) (min (3/2) quality)
  let (affixes, s5) :=
    if rarity ≠ Rarity.common then
      let (l, s5) := generateAffixes archetype rarity context s4
      (some l, s5)
    else (none, s4)
  (⟨archetype.slug, 1, rarity, some clampedQuality, affixes⟩, s5)

/-- The boost named by the loot spec sentence:
`luck*0.01 + levelDiff*0.02 + magicFind*0.01`. -/
def lootBoost (context : LootContext) : ℚ :=
  context.playerLuck * (1/100) + max 0 (context.sourceLevel - context.playerLevel) * (1/50) +
    context.magicFind * (1/100)

/-- Helper for the chain described by the spec sentence of claim C2:
from ladder index `i`, repeatedly roll against
`upgradeChances[i] + boost`, advancing one tier per successful roll and
stopping at the first failed roll; `remaining` counts the tiers above. -/
def claimedChainGo (remaining i : ℕ) (boost : ℚ) (s : PRNGState) : ℕ × PRNGState :=
  match remaining with
  | 0 => (i, s)
  | r + 1 =>
    let (u, s1) := jsRandom s
    if u < upgradeChances.getD i 0 + boost then
      claimedChainGo r (i + 1) boost s1
    else
      (i, s1)

/-- The single-drop rarity as described by the spec sentence of claim C2,
word for word: starting at the archetype rarity (after the base-quality
draw), attempt an upgrade roll for each subsequent ladder tier with the
decreasing base chance per tier, each boosted by
`luck*0.01 + levelDiff*0.02 + magicFind*0.01`, stopping at the first
failed roll.  (No separate gate roll appears in that description.) -/
def claimedDropRarity (archetype : ItemArchetype) (context : LootContext)
    (s : PRNGState) : Rarity :=
  let idx := rarityIndex archetype.rarity
  let (_, s1) := randFloat (4/5) 1 s
  let (j, _) := claimedChainGo (rarityOrder.length - 1 - idx) idx (lootBoost context) s1
  rarityOrder.getD j archetype.rarity

/-- The single-drop rarity as the code actually computes it (the amended
description of claim C2): after the base-quality draw, one gate roll
against `0.05 + luck*0.01 + levelDiff*0.02 + magicFind*0.01` decides
whether an upgrade is attempted at all; on gate success a single upgrade
roll is made at the fixed, unboosted chance of the starting tier
(`0.3, 0.1, 0.02`), advancing exactly one tier on success; the chain
stops after that first roll whether it succeeds or fails. -/
def amendedDropRarity (archetype : ItemArchetype) (context : LootContext)
    (s : PRNGState) : Rarity :=
  let idx := rarityIndex archetype.rarity
  let (_, s1) := randFloat (4/5) 1 s
  let (g, s2) := jsRandom s1
  if g < 1/20 + lootBoost context then
    let (u, _) := jsRandom s2
    if idx < 3 ∧ u < upgradeChances.getD idx 0 then
      rarityOrder.getD (idx + 1) archetype.rarity
    else
      archetype.rarity
  else
    archetype.rarity

/-! ## Combat resolver (`packages/rules-engine/src/combat.ts`) -/

/-- `Stats` (shared-types `z.record(z.string(), z.number())`): an open
map from stat names to numbers, modelled as an insertion-ordered
association list (first occurrence wins on lookup, as JS object keys are
unique). -/
def Stats : Type := List (String × ℚ)

/-- Property read `stats[k]`: `none` when the key is absent. -/
def statsGet (stats : Stats) (k : String) : Option ℚ :=
  (List.find? (fun p => p.1 = k) stats).map (fun p => p.2)

/-- JavaScript `x || d` on an optionally-present number: `undefined` and
`0` are falsy and fall through to the default. -/
def jsOrQ (v : Option ℚ) (d : ℚ) : ℚ :=
  match v with
  | none => d
  | some x => if x = 0 then d else x

/-- Property write `stats[k] = v`: overwrite in place when present
(keeping the key's position, as JS objects do), append otherwise. -/
def statsSet (stats : Stats) (k : String) (v : ℚ) : Stats :=
  match stats with
  | [] => [(k, v)]
  | (k1, v1) :: rest =>
    if k1 = k then (k1, v) :: rest else (k1, v1) :: statsSet rest k v

/-- A status effect (combat.ts lines 17-22). -/
structure StatusEffect where
  id : String
  name : String
  duration : ℚ
  effects : Stats

/-- `health`/`mana` resource of a combat entity. -/
structure Resource where
  current : ℚ
  max : ℚ

/-- `CombatEntity` (combat.ts lines 4-24). -/
structure CombatEntity where
  id : String
  name : String
  level : ℚ
  stats : Stats
  health : Resource
  mana : Option Resource
  statusEffects : Option (List StatusEffect)
  abilities : Option (List String)

/-- The `type` field of a `CombatAction` (combat.ts line 28). -/
inductive ActionType where
  | attack
  | defend
  | cast
  | item
  | flee
deriving DecidableEq, Repr

/-- `CombatAction` (combat.ts lines 26-32). -/
structure CombatAction where
  actorId : String
  type : ActionType
  targetId : Option String
  abilityId : Option String
  itemId : Option String

/-- `CombatTurn` (combat.ts lines 34-44). -/
structure CombatTurn where
  turn : ℕ
  actorId : String
  action : CombatAction
  roll : Option ℚ
  damage : Option ℚ
  healing : Option ℚ
  effects : Option (List String)
  success : Bool
  description : String

/-- `calculateEffectiveStats` inner loop (combat.ts lines 66-73): add an
active effect's stat deltas onto the accumulating bag. -/
def applyEffectStats (base : Stats) (entries : Stats) : Stats :=
  match entries with
  | [] => base
  | (stat, value) :: rest =>
    applyEffectStats (statsSet base stat (jsOrQ (statsGet base stat) 0 + value)) rest

/-- `calculateEffectiveStats` (combat.ts lines 61-81): copy the base
stats, add every status effect with `duration > 0`, then clamp every
entry at `≥ 0`. -/
def calculateEffectiveStats (entity : CombatEntity) : Stats :=
  let withEffects :=
    (entity.statusEffects.getD []).foldl
      (fun acc effect =>
        if 0 < effect.duration then applyEffectStats acc effect.effects else acc)
      entity.stats
  withEffects.map (fun p => (p.1, max 0 p.2))

/-- `calculateAC` (combat.ts lines 86-93).  Note the source floors only
`(dexterity - 10)` and then divides by two, so `dexMod` may be a half
integer; the final result is floored. -/
def calculateAC (entity : CombatEntity) : ℚ :=
  let stats := calculateEffectiveStats entity
  let baseAC : ℚ := 10
  let dexMod := jsFloor (jsOrQ (statsGet stats "dexterity") 10 - 10) / 2
  let armorBonus := jsOrQ (statsGet stats "armor") 0
  jsFloor (baseAC + dexMod + armorBonus)

/-- Attack type parameter of `calculateAttackBonus`/`calculateDamage`. -/
inductive AttackType where
  | melee
  | ranged
  | spell
deriving DecidableEq, Repr

/-- `calculateAttackBonus` (combat.ts lines 98-116): floored quarter of
the level plus half the floored stat excess over 10 plus any flat
`attackBonus` stat, floored. -/
def calculateAttackBonus (entity : CombatEntity) (attackType : AttackType) : ℚ :=
  let stats := calculateEffectiveStats entity
  let levelBonus := jsFloor (entity.level / 4)
  let statBonus :=
    match attackType with
    | AttackType.melee => jsFloor (jsOrQ (statsGet stats "strength") 10 - 10) / 2
    | AttackType.ranged => jsFloor (jsOrQ (statsGet stats "dexterity") 10 - 10) / 2
    | AttackType.spell => jsFloor (jsOrQ (statsGet stats "intelligence") 10 - 10) / 2
  jsFloor (levelBonus + statBonus + jsOrQ (statsGet stats "attackBonus") 0)

/-- `calculateDamage` (combat.ts lines 121-166): stat-based base damage,
±20% variance, luck-scaled critical doubling, damage reduction with a
floor of 1, resistance/vulnerability multiplier, final floor of 1. -/
def calculateDamage (attacker target : CombatEntity) (attackType : AttackType)
    (s : PRNGState) : (ℚ × Bool) × PRNGState :=
  let attackerStats := calculateEffectiveStats attacker
  let targetStats := calculateEffectiveStats target
  let baseDamage :=
    match attackType with
    | AttackType.melee =>
      jsFloor (jsOrQ (statsGet attackerStats "strength") 10 / 2) +
        jsOrQ (statsGet attackerStats "weaponDamage") 4
    | AttackType.ranged =>
      jsFloor (jsOrQ (statsGet attackerStats "dexterity") 10 / 2) +
        jsOrQ (statsGet attackerStats "weaponDamage") 4
    | AttackType.spell =>
      jsFloor (jsOrQ (statsGet attackerStats "intelligence") 10 / 2) +
        jsOrQ (statsGet attackerStats "spellPower") 6
  let (variance, s1) := randFloat (4/5) (6/5) s
  let damage0 := jsFloor (baseDamage * variance)
  let critChance := 1/20 + jsOrQ (statsGet attackerStats "luck") 0 * (1/100)
  let (c, s2) := jsRandom s1
  let critical := c < critChance
  let damage1 := if critical then jsFloor (damage0 * 2) else damage0
  let damageReduction := jsOrQ (statsGet targetStats "damageReduction") 0
  let damage2 := max 1 (damage1 - damageReduction)
  let resistance := jsOrQ (statsGet targetStats "resistance") 0
  let vulnerability := jsOrQ (statsGet targetStats "vulnerability") 0
  let damage3 := jsFloor (damage2 * (1 - resistance + vulnerability))
  ((max 1 damage3, critical), s2)

/-- The entity map `Map<string, CombatEntity>` of `resolveCombatTurn`,
as an association list with unique keys. -/
def EntMap : Type := List (String × CombatEntity)

/-- `entities.get(id)`: first match wins (keys are unique in a JS `Map`). -/
def lookupEnt (entities : EntMap) (id : String) : Option CombatEntity :=
  match entities with
  | [] => none
  | (k, v) :: rest => if k = id then some v else lookupEnt rest id

/-- In-place mutation of the entity object stored under `id`: replace the
value at the first matching key, keep the map unchanged when the key is
absent. -/
def setEnt (entities : EntMap) (id : String) (e : CombatEntity) : EntMap :=
  match entities with
  | [] => []
  | (k, v) :: rest =>
    if k = id then (k, e) :: rest else (k, v) :: setEnt rest id e

/-- The 1-turn defensive status effect pushed by the `defend` case
(combat.ts lines 240-245). -/
def defensiveStanceEffect : StatusEffect :=
  { id := "defensive_stance", name := "Defensive Stance", duration := 1,
    effects := [("armor", 2), ("damageReduction", 2)] }

/-- End-of-turn bookkeeping (combat.ts lines 270-274): decrement every
status effect's duration by 1 and prune those that reach 0. -/
def tickStatusEffects (l : List StatusEffect) : List StatusEffect :=
  (l.map (fun e => { e with duration := e.duration - 1 })).filter
    (fun e => 0 < e.duration)

/-- `resolveCombatTurn` (combat.ts lines 171-277).  The source mutates
the actor/target objects held in the `Map`; here every mutation becomes
an explicit map update, sequenced exactly as the source executes them
(attack updates the target first, the end-of-turn status tick then reads
the actor's current object, which handles actor = target aliasing). -/
def resolveCombatTurn (σ : Sha256Model) (turn : ℕ) (action : CombatAction)
    (entities : EntMap) (worldSeed : String) : Except String (CombatTurn × EntMap) :=
  match lookupEnt entities action.actorId with
  | none => Except.error ("Actor " ++ action.actorId ++ " not found")
  | some actor =>
    let rng := createSubsystemPRNG σ worldSeed "combat" action.actorId turn
    let base : CombatTurn :=
      { turn := turn, actorId := action.actorId, action := action, roll := none,
        damage := none, healing := none, effects := none, success := false,
        description := "" }
    let step :=
      match action.type with
      | ActionType.attack =>
        match action.targetId with
        | none =>
          ({ base with description := actor.name ++ " attacks but finds no target!" },
           entities)
        | some tid =>
          match lookupEnt entities tid with
          | none =>
            ({ base with description := actor.name ++ " attacks but finds no target!" },
             entities)
          | some target =>
            let (attackRoll, r1) := rollDice 1 20 0 rng
            let attackBonus := calculateAttackBonus actor AttackType.melee
            let targetAC := calculateAC target
            let roll := attackRoll + attackBonus
            if targetAC ≤ roll then
              let ((damage, critical), _r2) := calculateDamage actor target AttackType.melee r1
              let newCurrent := max 0 (target.health.current - damage)
              let target1 :=
                { target with health := { target.health with current := newCurrent } }
              let hitDesc :=
                if critical then
                  actor.name ++ " critically strikes " ++ target.name ++ " for " ++
                    toString damage ++ " damage!"
                else
                  actor.name ++ " attacks " ++ target.name ++ " for " ++
                    toString damage ++ " damage!"
              let defeatedMsg :=
                if newCurrent = 0 then " " ++ target.name ++ " is defeated!" else ""
              ({ base with
                  roll := some roll
                  damage := some damage
                  success := true
                  effects := if critical then some ["critical"] else none
                  description := hitDesc ++ defeatedMsg },
               setEnt entities tid target1)
            else
              ({ base with
                  roll := some roll
                  description := actor.name ++ " attacks " ++ target.name ++ " but misses!" },
               entities)
      | ActionType.defend =>
        let newEffects := (actor.statusEffects.getD []) ++ [defensiveStanceEffect]
        let actor1 := { actor with statusEffects := some newEffects }
        ({ base with
            success := true
            description := actor.name ++ " takes a defensive stance!" },
         setEnt entities action.actorId actor1)
      | ActionType.flee =>
        let stats := calculateEffectiveStats actor
        let fleeChance := 1/2 + (jsOrQ (statsGet stats "dexterity") 10 - 10) * (1/20)
        let (c, _r1) := jsRandom rng
        let fled := c < max (1/10) (min (9/10) fleeChance)
        ({ base with
            success := fled
            description :=
              if fled then actor.name ++ " successfully flees from combat!"
              else actor.name ++ " tries to flee but cannot escape!" },
         entities)
      | _ =>
        ({ base with description := actor.name ++ " performs an unknown action." },
         entities)
    let ct := step.1
    let entities1 := step.2
    let entities2 :=
      match lookupEnt entities1 action.actorId with
      | none => entities1
      | some a =>
        match a.statusEffects with
        | none => entities1
        | some l =>
          setEnt entities1 action.actorId
            { a with statusEffects := some (tickStatusEffects l) }
    Except.ok (ct, entities2)

/-- The turn record of a `resolveCombatTurn` result, when it succeeded. -/
def resTurn (r : Except String (CombatTurn × EntMap)) : Option CombatTurn :=
  match r with
  | Except.ok (ct, _) => some ct
  | Except.error _ => none

/-- The updated entity map of a `resolveCombatTurn` result. -/
def resEnts (r : Except String (CombatTurn × EntMap)) : Option EntMap :=
  match r with
  | Except.ok (_, m) => some m
  | Except.error _ => none

/-! ## Skill checks (`packages/rules-engine/src/items.ts`, skill part) -/

/-- `difficulty` of a `SkillCheck` (items.ts). -/
inductive Difficulty where
  | easy
  | normal
  | hard
  | extreme
deriving DecidableEq, Repr

/-- `DIFFICULTY_DCS` (items.ts lines 420-425):
`easy 10, normal 15, hard 20, extreme 25`. -/
def DIFFICULTY_DCS : Difficulty → ℚ
  | Difficulty.easy => 10
  | Difficulty.normal => 15
  | Difficulty.hard => 20
  | Difficulty.extreme => 25

/-- `SKILL_STAT_MAP` (items.ts lines 430-449), as a partial map. -/
def SKILL_STAT_MAP (skill : String) : Option String :=
  if skill = "athletics" then some "strength"
  else if skill = "acrobatics" then some "dexterity"
  else if skill = "stealth" then some "dexterity"
  else if skill = "sleightOfHand" then some "dexterity"
  else if skill = "arcana" then some "intelligence"
  else if skill = "history" then some "intelligence"
  else if skill = "investigation" then some "intelligence"
  else if skill = "nature" then some "intelligence"
  else if skill = "religion" then some "intelligence"
  else if skill = "insight" then some "wisdom"
  else if skill = "medicine" then some "wisdom"
  else if skill = "perception" then some "wisdom"
  else if skill = "survival" then some "wisdom"
  else if skill = "animalHandling" then some "wisdom"
  else if skill = "deception" then some "charisma"
  else if skill = "intimidation" then some "charisma"
  else if skill = "performance" then some "charisma"
  else if skill = "persuasion" then some "charisma"
  else none

/-- `calculateSkillModifier` (items.ts lines 454-471):
`floor((statValue - 10) / 2)` plus a proficiency bonus
`ceil(level / 4) + 1` when the skill is proficient, plus any
`<skill>Bonus` stat. -/
def calculateSkillModifier (skill : String) (stats : Stats) (level : ℚ)
    (proficiencies : List String) : ℚ :=
  let primaryStat := (SKILL_STAT_MAP skill).getD "intelligence"
  let statValue := jsOrQ (statsGet stats primaryStat) 10
  let statModifier := jsFloor ((statValue - 10) / 2)
  let proficiencyBonus :=
    if skill ∈ proficiencies then jsCeil (level / 4) + 1 else 0
  let skillBonus := jsOrQ (statsGet stats (skill ++ "Bonus")) 0
  statModifier + proficiencyBonus + skillBonus

/-- `SkillCheck` (items.ts lines 402-406). -/
structure SkillCheck where
  skill : String
  difficulty : Difficulty
  modifiers : Option (List (String × ℚ))

/-- `degree` of a `SkillResult`. -/
inductive SkillDegree where
  | critical_failure
  | failure
  | success
  | critical_success
deriving DecidableEq, Repr

/-- `SkillResult` (items.ts lines 408-415).  The human-readable
`description` is omitted from the model: no verified claim concerns it
and it carries no information beyond the other fields. -/
structure SkillResult where
  success : Bool
  roll : ℚ
  totalModifier : ℚ
  targetDC : ℚ
  degree : SkillDegree

/-- `performSkillCheck` (items.ts lines 476-513 of the skill module):
derive the `skills` generator, roll `1d20`, add modifiers, compare with
the difficulty DC; `degree` overrides: natural 20 ⇒ critical_success,
natural 1 ⇒ critical_failure, otherwise success/failure upgraded to the
critical variant 10 or more away from the DC. -/
def performSkillCheck (σ : Sha256Model) (check : SkillCheck) (stats : Stats)
    (level : ℚ) (proficiencies : List String) (worldSeed entityId : String)
    (turnNumber : ℕ) : SkillResult :=
  let rng := createSubsystemPRNG σ worldSeed "skills" entityId turnNumber
  let (roll, _r1) := rollDice 1 20 0 rng
  let skillModifier := calculateSkillModifier check.skill stats level proficiencies
  let situationalModifiers := ((check.modifiers.getD []).map (fun p => p.2)).sum
  let totalModifier := skillModifier + situationalModifiers
  let targetDC := DIFFICULTY_DCS check.difficulty
  let finalResult := roll + totalModifier
  let success := targetDC ≤ finalResult
  let degree :=
    if roll = 20 then SkillDegree.critical_success
    else if roll = 1 then SkillDegree.critical_failure
    else if success then
      if targetDC + 10 ≤ finalResult then SkillDegree.critical_success
      else SkillDegree.success
    else
      if finalResult ≤ targetDC - 10 then SkillDegree.critical_failure
      else SkillDegree.failure
  { success := success, roll := roll, totalModifier := totalModifier,
    targetDC := targetDC, degree := degree }

/-! ## Experience and leveling (`leveling.ts`, pure arithmetic) -/

/-- `calculateXPForLevel` (leveling.ts lines 17-23):
`0` for `level <= 1`, otherwise
`Math.floor((level-1)^2.2 * 100 + (level-1) * 50)`.  The fractional power
`Math.pow(level-1, 2.2)` is modelled as the exact real power
`Real.rpow`. -/
noncomputable def calculateXPForLevel (level : ℕ) : ℕ :=
  if level ≤ 1 then 0
  else ⌊((level : ℝ) - 1) ^ (2.2 : ℝ) * 100 + ((level : ℝ) - 1) * 50⌋₊

/-- `calculateTotalXPForLevel` (leveling.ts lines 28-34):
`Σ_{i=2}^{level} calculateXPForLevel(i)`. -/
noncomputable def calculateTotalXPForLevel (level : ℕ) : ℕ :=
  ∑ i ∈ Finset.Icc 2 level, calculateXPForLevel i

/-- The `while` loop of `getLevelFromXP` (leveling.ts lines 43-51), with
an explicit fuel bound (the loop body always terminates because each
kept iteration adds `calculateXPForLevel(level+1) ≥ 150` to the
accumulator while the accumulator stays `≤ totalXP`): while
`acc <= totalXP`, tentatively advance to `level+1`; if the next level's
requirement would overshoot, stop at `level`, else accumulate and
continue. -/
noncomputable def levelLoop (fuel totalXP level acc : ℕ) : ℕ :=
  match fuel with
  | 0 => level
  | fuel + 1 =>
    if acc ≤ totalXP then
      if totalXP < acc + calculateXPForLevel (level + 1) then level
      else levelLoop fuel totalXP (level + 1) (acc + calculateXPForLevel (level + 1))
    else level

/-- `getLevelFromXP` (leveling.ts lines 39-54): run the loop from
`level = 1, acc = 0` and clamp the result with `Math.max(1, level)`.
`totalXP + 1` units of fuel strictly dominate the iteration count. -/
noncomputable def getLevelFromXP (totalXP : ℕ) : ℕ :=
  max 1 (levelLoop (totalXP + 1) totalXP 1 0)

/-! ## Generic facts about the generator primitives -/

/-- Every raw PCG output is a 32-bit value. -/
theorem pcgNext_fst_lt (s : PRNGState) : (pcgNext s).1 < 2 ^ 32 := by
  simp only [pcgNext]
  exact Nat.mod_lt _ (by norm_num)

/-- `random()` draws are nonnegative. -/
theorem jsRandom_fst_nonneg (s : PRNGState) : 0 ≤ (jsRandom s).1 := by
  rcases h : pcgNext s with ⟨k, s1⟩
  simp only [jsRandom, h]
  positivity

/-- `random()` draws are below 1. -/
theorem jsRandom_fst_lt_one (s : PRNGState) : (jsRandom s).1 < 1 := by
  rcases h : pcgNext s with ⟨k, s1⟩
  have hk : k < 2 ^ 32 := by
    have := pcgNext_fst_lt s
    rw [h] at this
    exact this
  simp only [jsRandom, h]
  rw [div_lt_one (by norm_num)]
  exact_mod_cast hk

/-- C1: for every tuple `(worldSeed, subsystem, entityId, turn)` (and any
behaviour of the external SHA-256 hash), two generator instances derived
independently via `createSubsystemPRNG` from the same four inputs produce
identical sequences of `next()` outputs and identical sequences of
`random()` outputs, hence identical downstream outcomes.  In this pure
embedding the derivation is a function of its inputs and carries no
hidden global state, so the two runs are literally the same value. -/
theorem createSubsystemPRNG_two_run_determinism (σ : Sha256Model)
    (worldSeed subsystem entityId : String) (turnNumber k : ℕ) :
    nextStream (createSubsystemPRNG σ worldSeed subsystem entityId turnNumber) k =
        nextStream (createSubsystemPRNG σ worldSeed subsystem entityId turnNumber) k ∧
      randomStream (createSubsystemPRNG σ worldSeed subsystem entityId turnNumber) k =
        randomStream (createSubsystemPRNG σ worldSeed subsystem entityId turnNumber) k :=
  ⟨rfl, rfl⟩

/-- C3: a single `upgradeRarity` pass never lowers the ladder index and
never advances it by more than one tier, for every starting rarity and
every generator state. -/
theorem upgradeRarity_monotone_no_skip (r : Rarity) (s : PRNGState) :
    rarityIndex r ≤ rarityIndex (upgradeRarity r s).1 ∧
      rarityIndex (upgradeRarity r s).1 ≤ rarityIndex r + 1 := by
  rcases h : jsRandom s with ⟨u, s1⟩
  cases r <;>
    simp only [upgradeRarity, rarityIndex, rarityOrder, upgradeChances, h,
      List.length_cons, List.length_nil, List.getD] <;>
    norm_num <;>
    split_ifs <;>
    simp [rarityIndex]

/-- C10: the `success` flag of `performSkillCheck` equals
`roll + totalModifier >= targetDC` for every input, independently of the
natural die value (no critical override touches it). -/
theorem performSkillCheck_success_iff (σ : Sha256Model) (check : SkillCheck)
    (stats : Stats) (level : ℚ) (proficiencies : List String)
    (worldSeed entityId : String) (turnNumber : ℕ) :
    (performSkillCheck σ check stats level proficiencies worldSeed entityId
          turnNumber).success = true ↔
      (performSkillCheck σ check stats level proficiencies worldSeed entityId
          turnNumber).targetDC ≤
        (performSkillCheck σ check stats level proficiencies worldSeed entityId
            turnNumber).roll +
          (performSkillCheck σ check stats level proficiencies worldSeed entityId
              turnNumber).totalModifier := by
  rcases h : rollDice 1 20 0
      (createSubsystemPRNG σ worldSeed "skills" entityId turnNumber) with ⟨roll, r1⟩
  simp [performSkillCheck, h]

/-- C4: in every skill check, a natural d20 roll of 20 yields degree
`critical_success` even when `roll + totalModifier < targetDC`, and a
natural roll of 1 yields `critical_failure` even when
`roll + totalModifier >= targetDC + 10`. -/
theorem performSkillCheck_critical_overrides (σ : Sha256Model) (check : SkillCheck)
    (stats : Stats) (level : ℚ) (proficiencies : List String)
    (worldSeed entityId : String) (turnNumber : ℕ) :
    ((performSkillCheck σ check stats level proficiencies worldSeed entityId
            turnNumber).roll = 20 →
        (performSkillCheck σ check stats level proficiencies worldSeed entityId
              turnNumber).roll +
            (performSkillCheck σ check stats level proficiencies worldSeed entityId
                turnNumber).totalModifier <
          (performSkillCheck σ check stats level proficiencies worldSeed entityId
              turnNumber).targetDC →
        (performSkillCheck σ check stats level proficiencies worldSeed entityId
            turnNumber).degree = SkillDegree.critical_success) ∧
      ((performSkillCheck σ check stats level proficiencies worldSeed entityId
            turnNumber).roll = 1 →
        (performSkillCheck σ check stats level proficiencies worldSeed entityId
              turnNumber).targetDC + 10 ≤
          (performSkillCheck σ check stats level proficiencies worldSeed entityId
                turnNumber).roll +
            (performSkillCheck σ check stats level proficiencies worldSeed entityId
                turnNumber).totalModifier →
        (performSkillCheck σ check stats level proficiencies worldSeed entityId
            turnNumber).degree = SkillDegree.critical_failure) := by
  rcases h : rollDice 1 20 0
      (createSubsystemPRNG σ worldSeed "skills" entityId turnNumber) with ⟨roll, r1⟩
  constructor
  · intro h20 _
    simp only [performSkillCheck, h] at h20 ⊢
    simp [h20]
  · intro h1 _
    simp only [performSkillCheck, h] at h1 ⊢
    simp [h1]

/-- C7 (counterexample): the claim states that for every inverted pair
`min > max` the integer-range primitive of BOTH generator classes returns
normally with a value in `[max, min]`; `DeterministicPRNG.randInt`
instead throws on the concrete inverted pair `(5, 3)`. -/
theorem detRandInt_inverted_counterexample :
    detRandInt 5 3 ⟨42, 1013904223⟩ = Except.error "min must be <= max" := by
  norm_num [detRandInt]

/-- C7 (amended): on inverted integer bounds `min > max`,
`PRNG.randInt` swaps the bounds and returns an integer in `[max, min]`,
while `DeterministicPRNG.randInt` raises `'min must be <= max'` instead
of returning. -/
theorem randInt_swaps_detRandInt_throws (m M : ℤ) (s : PRNGState) (h : M < m) :
    (((M : ℤ) : ℚ) ≤ (randInt ((m : ℤ) : ℚ) ((M : ℤ) : ℚ) s).1 ∧
        (randInt ((m : ℤ) : ℚ) ((M : ℤ) : ℚ) s).1 ≤ ((m : ℤ) : ℚ) ∧
        ∃ z : ℤ, (randInt ((m : ℤ) : ℚ) ((M : ℤ) : ℚ) s).1 = (z : ℚ)) ∧
      detRandInt ((m : ℤ) : ℚ) ((M : ℤ) : ℚ) s = Except.error "min must be <= max" := by
  have hq : ((M : ℤ) : ℚ) < ((m : ℤ) : ℚ) := by exact_mod_cast h
  rcases hr : jsRandom s with ⟨u, s1⟩
  have hu0 : 0 ≤ u := by
    have := jsRandom_fst_nonneg s
    rw [hr] at this
    exact this
  have hu1 : u < 1 := by
    have := jsRandom_fst_lt_one s
    rw [hr] at this
    exact this
  have hR1 : (1 : ℚ) ≤ ((m : ℤ) : ℚ) - ((M : ℤ) : ℚ) + 1 := by
    have : ((M : ℤ) : ℚ) + 1 ≤ ((m : ℤ) : ℚ) := by exact_mod_cast h
    linarith
  refine ⟨?_, ?_⟩
  · simp only [randInt, hr, if_pos hq]
    have h0f : (0 : ℤ) ≤ ⌊u * (((m : ℤ) : ℚ) - ((M : ℤ) : ℚ) + 1)⌋ :=
      Int.floor_nonneg.mpr (mul_nonneg hu0 (by linarith))
    have hlt : u * (((m : ℤ) : ℚ) - ((M : ℤ) : ℚ) + 1) <
        ((m - M + 1 : ℤ) : ℚ) := by
      push_cast
      nlinarith
    have hfl : ⌊u * (((m : ℤ) : ℚ) - ((M : ℤ) : ℚ) + 1)⌋ < m - M + 1 :=
      Int.floor_lt.mpr hlt
    have hfl2 : ⌊u * (((m : ℤ) : ℚ) - ((M : ℤ) : ℚ) + 1)⌋ ≤ m - M := by omega
    refine ⟨?_, ?_, ?_⟩
    · simp only [jsFloor]
      have : (0 : ℚ) ≤ (⌊u * (((m : ℤ) : ℚ) - ((M : ℤ) : ℚ) + 1)⌋ : ℚ) := by
        exact_mod_cast h0f
      linarith
    · simp only [jsFloor]
      have : (⌊u * (((m : ℤ) : ℚ) - ((M : ℤ) : ℚ) + 1)⌋ : ℚ) ≤ ((m - M : ℤ) : ℚ) := by
        exact_mod_cast hfl2
      push_cast at this
      linarith
    · exact ⟨⌊u * (((m : ℤ) : ℚ) - ((M : ℤ) : ℚ) + 1)⌋ + M, by
        simp only [jsFloor]
        push_cast
        ring⟩
  · simp only [detRandInt, if_pos hq]

/-- C7 (witness): the amended statement at the concrete inverted pair
`(5, 3)` and a concrete generator state. -/
theorem randInt_swaps_detRandInt_throws_witness :
    ((((3 : ℤ) : ℚ)) ≤ (randInt (((5 : ℤ) : ℚ)) (((3 : ℤ) : ℚ)) ⟨42, 1013904223⟩).1 ∧
        (randInt (((5 : ℤ) : ℚ)) (((3 : ℤ) : ℚ)) ⟨42, 1013904223⟩).1 ≤ (((5 : ℤ) : ℚ)) ∧
        ∃ z : ℤ, (randInt (((5 : ℤ) : ℚ)) (((3 : ℤ) : ℚ)) ⟨42, 1013904223⟩).1 = (z : ℚ)) ∧
      detRandInt (((5 : ℤ) : ℚ)) (((3 : ℤ) : ℚ)) ⟨42, 1013904223⟩ =
        Except.error "min must be <= max" :=
  randInt_swaps_detRandInt_throws 5 3 ⟨42, 1013904223⟩ (by norm_num)

/-- C4 (witness): with a hash stub making the skills generator start at
state 8393639772814660410, the natural roll is 20 while the total
(-30 situational modifier) is far below the easy DC of 10, and the
degree is still `critical_success`; with a stub yielding state
1013904223 the natural roll is 1 while the total (+30) exceeds
`DC + 10`, and the degree is still `critical_failure`. -/
theorem performSkillCheck_critical_overrides_witness :
    (performSkillCheck ⟨fun _ => "", fun _ => 39⟩
          ⟨"athletics", Difficulty.easy, some [("pen", -30)]⟩ [] 1 [] "w" "e" 0).degree =
        SkillDegree.critical_success ∧
      (performSkillCheck ⟨fun _ => "", fun _ => 0⟩
          ⟨"athletics", Difficulty.easy, some [("buff", 30)]⟩ [] 1 [] "w" "e" 0).degree =
        SkillDegree.critical_failure := by
  have hgen39 : createSubsystemPRNG ⟨fun _ => "", fun _ => 39⟩ "w" "skills" "e" 0 =
      ⟨8393639772814660410, 1013904223⟩ := by decide
  have hp39 : pcgNext ⟨8393639772814660410, 1013904223⟩ =
      (4243996183, ⟨84107395333773969, 1013904223⟩) := by decide
  have hj39 : jsRandom ⟨8393639772814660410, 1013904223⟩ =
      ((4243996183 : ℚ) / 4294967296, ⟨84107395333773969, 1013904223⟩) := by
    simp [jsRandom, hp39]
  have hri39 : randInt 1 20 ⟨8393639772814660410, 1013904223⟩ =
      (20, ⟨84107395333773969, 1013904223⟩) := by
    simp only [randInt, hj39]
    norm_num [jsFloor, Int.floor_eq_iff]
  have hrd39 : rollDice 1 20 0 ⟨8393639772814660410, 1013904223⟩ =
      (20, ⟨84107395333773969, 1013904223⟩) := by
    simp only [rollDice, rollDiceSum, hri39]
    norm_num
  have hgen0 : createSubsystemPRNG ⟨fun _ => "", fun _ => 0⟩ "w" "skills" "e" 0 =
      ⟨1013904223, 1013904223⟩ := by decide
  have hp0 : pcgNext ⟨1013904223, 1013904223⟩ =
      (7, ⟨1917001326583536658, 1013904223⟩) := by decide
  have hj0 : jsRandom ⟨1013904223, 1013904223⟩ =
      ((7 : ℚ) / 4294967296, ⟨1917001326583536658, 1013904223⟩) := by
    simp [jsRandom, hp0]
  have hri0 : randInt 1 20 ⟨1013904223, 1013904223⟩ =
      (1, ⟨1917001326583536658, 1013904223⟩) := by
    simp only [randInt, hj0]
    norm_num [jsFloor, Int.floor_eq_iff]
  have hrd0 : rollDice 1 20 0 ⟨1013904223, 1013904223⟩ =
      (1, ⟨1917001326583536658, 1013904223⟩) := by
    simp only [rollDice, rollDiceSum, hri0]
    norm_num
  constructor
  · refine (performSkillCheck_critical_overrides ⟨fun _ => "", fun _ => 39⟩
        ⟨"athletics", Difficulty.easy, some [("pen", -30)]⟩ [] 1 [] "w" "e" 0).1 ?_ ?_
    · simp [performSkillCheck, hgen39, hrd39]
    · simp [performSkillCheck, hgen39, hrd39, calculateSkillModifier, SKILL_STAT_MAP,
        statsGet, jsOrQ, jsFloor, jsCeil, DIFFICULTY_DCS]
      norm_num
  · refine (performSkillCheck_critical_overrides ⟨fun _ => "", fun _ => 0⟩
        ⟨"athletics", Difficulty.easy, some [("buff", 30)]⟩ [] 1 [] "w" "e" 0).2 ?_ ?_
    · simp [performSkillCheck, hgen0, hrd0]
    · simp [performSkillCheck, hgen0, hrd0, calculateSkillModifier, SKILL_STAT_MAP,
        statsGet, jsOrQ, jsFloor, jsCeil, DIFFICULTY_DCS]
      norm_num

set_option maxRecDepth 16000 in
/-- C2 (counterexample): with `playerLuck = 200` the claimed boost
(`luck*0.01 = 2`) pushes every per-tier chance above 1, so the chain the
claim describes always climbs `common -> rare -> epic -> legendary`;
the code instead leaves this concrete drop at `common`, because the
boost only feeds a separate gate roll and the per-tier chances are the
fixed, unboosted `[0.3, 0.1, 0.02]` (here the single tier roll fails at
`0.846 ≥ 0.3`). -/
theorem claimed_boosted_chain_counterexample :
    claimedDropRarity ⟨"sword", Rarity.common, "weapon", []⟩
        ⟨1, "snake", 1, 200, 0, "w", "d1"⟩ ⟨42, 1013904223⟩ = Rarity.legendary ∧
      (generateItemDrop ⟨"sword", Rarity.common, "weapon", []⟩
          ⟨1, "snake", 1, 200, 0, "w", "d1"⟩ ⟨42, 1013904223⟩).1.rarity = Rarity.common := by
  have hp0 : pcgNext ⟨42, 1013904223⟩ = (0, ⟨9039304370645487809, 1013904223⟩) := by decide
  have hp1 : pcgNext ⟨9039304370645487809, 1013904223⟩ =
      (210984068, ⟨4200056494555227212, 1013904223⟩) := by decide
  have hp2 : pcgNext ⟨4200056494555227212, 1013904223⟩ =
      (3633473004, ⟨17341567941469227195, 1013904223⟩) := by decide
  have hp3 : pcgNext ⟨17341567941469227195, 1013904223⟩ =
      (1422787028, ⟨15363969149822730558, 1013904223⟩) := by decide
  constructor
  · simp only [claimedDropRarity, claimedChainGo, lootBoost, randFloat, jsRandom,
      hp0, hp1, hp2, hp3, rarityIndex, rarityOrder, upgradeChances]
    norm_num
  · simp only [generateItemDrop, upgradeRarity, randFloat, jsRandom,
      hp0, hp1, hp2, rarityIndex, rarityOrder, upgradeChances]
    norm_num

set_option maxRecDepth 16000 in
/-- C2 (amended): in `generateItemDrop` the luck/level/magic-find boost
feeds a single gate roll with chance
`0.05 + luck*0.01 + levelDiff*0.02 + magicFind*0.01`; only when that
gate succeeds is `upgradeRarity` attempted, and it performs a single
upgrade roll at the fixed, unboosted chance of the starting tier
(`0.3 / 0.1 / 0.02`), advancing at most one tier and stopping after that
first roll whether it succeeds or fails. -/
theorem generateItemDrop_rarity_amended (arch : ItemArchetype) (ctx : LootContext)
    (s : PRNGState) :
    (generateItemDrop arch ctx s).1.rarity = amendedDropRarity arch ctx s := by
  obtain ⟨slug, r0, slot, tags⟩ := arch
  rcases hq : randFloat (4/5) 1 s with ⟨q0, s1⟩
  rcases hg : jsRandom s1 with ⟨g, s2⟩
  rcases hu : jsRandom s2 with ⟨u, s3⟩
  have hEq : (1 : ℚ)/20 + ctx.playerLuck * (1/100) +
      max 0 (ctx.sourceLevel - ctx.playerLevel) * (1/50) + ctx.magicFind * (1/100) =
      1/20 + lootBoost ctx := by
    rw [lootBoost]; ring
  simp only [generateItemDrop, amendedDropRarity, upgradeRarity, hq, hg, hu]
  rw [hEq]
  cases r0 <;> by_cases hgate : g < 1/20 + lootBoost ctx <;>
    simp only [if_pos, if_neg, hgate, if_true, if_false, rarityIndex, rarityOrder,
      upgradeChances, List.getD, List.get?, List.length] <;>
    norm_num <;>
    first
      | rfl
      | (split <;> rfl)

/-- Updating the object stored under a present key makes later lookups
of that key see the new object. -/
theorem lookupEnt_setEnt_self (m : EntMap) (k : String) (v w : CombatEntity)
    (h : lookupEnt m k = some w) : lookupEnt (setEnt m k v) k = some v := by
  induction m with
  | nil => simp [lookupEnt] at h
  | cons p rest ih =>
    obtain ⟨k1, v1⟩ := p
    by_cases hk : k1 = k
    · subst hk
      simp [lookupEnt, setEnt]
    · simp only [lookupEnt, setEnt, if_neg hk] at h ⊢
      exact ih h

/-- Updating one key leaves lookups of other keys unchanged. -/
theorem lookupEnt_setEnt_ne (m : EntMap) (k k' : String) (v : CombatEntity)
    (h : k ≠ k') : lookupEnt (setEnt m k v) k' = lookupEnt m k' := by
  induction m with
  | nil => simp [setEnt, lookupEnt]
  | cons p rest ih =>
    obtain ⟨k1, v1⟩ := p
    by_cases hk : k1 = k
    · subst hk
      simp [lookupEnt, setEnt, if_neg h, ih]
    · by_cases hk2 : k1 = k'
      · subst hk2
        simp [lookupEnt, setEnt, if_neg hk]
      · simp [lookupEnt, setEnt, if_neg hk, if_neg hk2, ih]

/-- C5: whenever `resolveCombatTurn` resolves a hit attack (the turn
record reports `success = true` and damage `d`), the target's
`health.current` in the updated entity map equals
`max(0, previous health.current - d)`; in particular it is never
negative. -/
theorem resolveCombatTurn_attack_health_floor
    (σ : Sha256Model) (turn : ℕ) (aid tid : String) (ab ii : Option String)
    (entities : EntMap) (worldSeed : String) (tgt : CombatEntity)
    (hT : lookupEnt entities tid = some tgt)
    (hS : (resTurn (resolveCombatTurn σ turn ⟨aid, ActionType.attack, some tid, ab, ii⟩
        entities worldSeed)).map CombatTurn.success = some true) :
    ((resEnts (resolveCombatTurn σ turn ⟨aid, ActionType.attack, some tid, ab, ii⟩
          entities worldSeed)).bind (fun m => lookupEnt m tid)).map
        (fun e => e.health.current) =
      (resTurn (resolveCombatTurn σ turn ⟨aid, ActionType.attack, some tid, ab, ii⟩
          entities worldSeed)).map
        (fun ct => max 0 (tgt.health.current - ct.damage.getD 0)) := by
  rcases hA : lookupEnt entities aid with _ | act
  · rw [resolveCombatTurn] at hS
    simp [hA, resTurn] at hS
  · rcases hroll : rollDice 1 20 0 (createSubsystemPRNG σ worldSeed "combat" aid turn)
      with ⟨attackRoll, r1⟩
    rcases hdmg : calculateDamage act tgt AttackType.melee r1 with ⟨⟨damage, critical⟩, r2⟩
    by_cases hhit : calculateAC tgt ≤ attackRoll + calculateAttackBonus act AttackType.melee
    · simp only [resolveCombatTurn, hA, hT, hroll, hdmg, if_pos hhit, resTurn, resEnts,
        Option.map_some, Option.some_bind] at hS ⊢
      by_cases hid : aid = tid
      · subst hid
        rcases hse : tgt.statusEffects with _ | l <;>
          simp [hse, lookupEnt_setEnt_self, lookupEnt_setEnt_ne, hT, hA]
      · have hne : tid ≠ aid := fun h => hid h.symm
        rcases hse : act.statusEffects with _ | l <;>
          simp [hse, lookupEnt_setEnt_self, lookupEnt_setEnt_ne, hT, hA, hid, hne]
    · simp only [resolveCombatTurn, hA, hT, hroll, hdmg, if_neg hhit, resTurn,
        Option.map_some] at hS
      simp at hS

/-- C6: resolving a `defend` action pushes the 1-turn
`defensive_stance` effect (`+2 armor, +2 damageReduction`) onto the
acting entity and then applies the end-of-turn rule - every status
effect's duration decremented by 1, effects reaching 0 pruned - so the
actor's post-turn status list is exactly the composition of the two
rules (and its health is untouched). -/
theorem resolveCombatTurn_defend_status_tick
    (σ : Sha256Model) (turn : ℕ) (aid : String) (ti ab ii : Option String)
    (entities : EntMap) (worldSeed : String) (act : CombatEntity)
    (hA : lookupEnt entities aid = some act) :
    ((resEnts (resolveCombatTurn σ turn ⟨aid, ActionType.defend, ti, ab, ii⟩
          entities worldSeed)).bind (fun m => lookupEnt m aid)).map
        (fun e => (e.statusEffects, e.health.current)) =
      some (some (tickStatusEffects ((act.statusEffects.getD []) ++ [defensiveStanceEffect])),
        act.health.current) := by
  simp only [resolveCombatTurn, hA, resEnts, Option.some_bind]
  simp [lookupEnt_setEnt_self, lookupEnt_setEnt_ne, hA]

/-- C6 (witness): a concrete defend turn for an actor carrying a
3-turn regeneration effect. -/
theorem defend_witness :
    ((resEnts (resolveCombatTurn ⟨fun _ => "", fun _ => 7⟩ 0
          ⟨"h", ActionType.defend, none, none, none⟩
          [("h", ⟨"h", "Hero", 1, [], ⟨10, 10⟩, none,
            some [⟨"regen", "Regen", 3, [("healthRegen", 1)]⟩], none⟩)]
          "w")).bind (fun m => lookupEnt m "h")).map
        (fun e => (e.statusEffects, e.health.current)) =
      some (some (tickStatusEffects
          ([⟨"regen", "Regen", 3, [("healthRegen", 1)]⟩] ++ [defensiveStanceEffect])), 10) := by
  have h := resolveCombatTurn_defend_status_tick ⟨fun _ => "", fun _ => 7⟩ 0 "h" none none none
    [("h", ⟨"h", "Hero", 1, [], ⟨10, 10⟩, none,
      some [⟨"regen", "Regen", 3, [("healthRegen", 1)]⟩], none⟩)] "w"
    ⟨"h", "Hero", 1, [], ⟨10, 10⟩, none,
      some [⟨"regen", "Regen", 3, [("healthRegen", 1)]⟩], none⟩
    (by simp [lookupEnt])
  simpa using h

/-- C5 (witness): a concrete hit attack (+30 attack bonus against
AC 10, rolled damage 10 against 5 health - the target's health floors
at 0). -/
theorem attack_witness :
    ((resEnts (resolveCombatTurn ⟨fun _ => "", fun _ => 1⟩ 0
          ⟨"a", ActionType.attack, some "t", none, none⟩
          [("a", ⟨"a", "Hero", 0, [("attackBonus", 30)], ⟨10, 10⟩, none, none, none⟩),
           ("t", ⟨"t", "Slime", 0, [], ⟨5, 10⟩, none, none, none⟩)]
          "w")).bind (fun m => lookupEnt m "t")).map
        (fun e => e.health.current) =
      (resTurn (resolveCombatTurn ⟨fun _ => "", fun _ => 1⟩ 0
          ⟨"a", ActionType.attack, some "t", none, none⟩
          [("a", ⟨"a", "Hero", 0, [("attackBonus", 30)], ⟨10, 10⟩, none, none, none⟩),
           ("t", ⟨"t", "Slime", 0, [], ⟨5, 10⟩, none, none, none⟩)]
          "w")).map
        (fun ct => max 0 ((5 : ℚ) - ct.damage.getD 0)) := by
  have hgen : createSubsystemPRNG ⟨fun _ => "", fun _ => 1⟩ "w" "combat" "a" 0 =
      ⟨6364136224860697228, 1013904223⟩ := by decide
  have hp1 : pcgNext ⟨6364136224860697228, 1013904223⟩ =
      (3888203656, ⟨9437899050893871611, 1013904223⟩) := by decide
  have hp2 : pcgNext ⟨9437899050893871611, 1013904223⟩ =
      (4060700480, ⟨3239420864719993214, 1013904223⟩) := by decide
  have hp3 : pcgNext ⟨3239420864719993214, 1013904223⟩ =
      (3572807457, ⟨10797760639764664453, 1013904223⟩) := by decide
  have hroll : rollDice 1 20 0 ⟨6364136224860697228, 1013904223⟩ =
      (19, ⟨9437899050893871611, 1013904223⟩) := by
    simp only [rollDice, rollDiceSum, randInt, jsRandom, hp1]
    norm_num [jsFloor, Int.floor_eq_iff]
  have hdmg : calculateDamage
      ⟨"a", "Hero", 0, [("attackBonus", 30)], ⟨10, 10⟩, none, none, none⟩
      ⟨"t", "Slime", 0, [], ⟨5, 10⟩, none, none, none⟩ AttackType.melee
      ⟨9437899050893871611, 1013904223⟩ =
      ((10, false), ⟨10797760639764664453, 1013904223⟩) := by
    simp only [calculateDamage, calculateEffectiveStats, statsGet, jsOrQ, randFloat,
      jsRandom, hp2, hp3]
    simp
    norm_num [jsFloor, Int.floor_eq_iff]
  have hS : (resTurn (resolveCombatTurn ⟨fun _ => "", fun _ => 1⟩ 0
      ⟨"a", ActionType.attack, some "t", none, none⟩
      [("a", ⟨"a", "Hero", 0, [("attackBonus", 30)], ⟨10, 10⟩, none, none, none⟩),
       ("t", ⟨"t", "Slime", 0, [], ⟨5, 10⟩, none, none, none⟩)]
      "w")).map CombatTurn.success = some true := by
    simp only [resolveCombatTurn, hgen, hroll, hdmg, lookupEnt]
    simp only [calculateAC, calculateAttackBonus, calculateEffectiveStats, statsGet,
      jsOrQ, jsFloor]
    simp
    norm_num [resTurn]
  have h := resolveCombatTurn_attack_health_floor ⟨fun _ => "", fun _ => 1⟩ 0 "a" "t"
    none none
    [("a", ⟨"a", "Hero", 0, [("attackBonus", 30)], ⟨10, 10⟩, none, none, none⟩),
     ("t", ⟨"t", "Slime", 0, [], ⟨5, 10⟩, none, none, none⟩)] "w"
    ⟨"t", "Slime", 0, [], ⟨5, 10⟩, none, none, none⟩
    (by simp [lookupEnt]) hS
  simpa using h

/-- Every level beyond the first costs at least 50 XP
(`(n-1)*50 ≥ 50` and the power term is nonnegative). -/
theorem xp_ge_fifty (n : ℕ) (h : 2 ≤ n) : 50 ≤ calculateXPForLevel n := by
  have h1 : ¬ (n ≤ 1) := by omega
  simp only [calculateXPForLevel, if_neg h1]
  apply Nat.le_floor
  have hn : (2 : ℝ) ≤ (n : ℝ) := by exact_mod_cast h
  have hnn : (0 : ℝ) ≤ (n : ℝ) - 1 := by linarith
  have hr := Real.rpow_nonneg hnn (2.2 : ℝ)
  push_cast
  nlinarith

/-- Consecutive XP requirements differ by at least 50: the real-valued
curve gains `100*((n)^2.2 - (n-1)^2.2) + 50 ≥ 50` per level, and the
floor preserves a gap of a whole number. -/
theorem xp_step (n : ℕ) (h : 2 ≤ n) :
    calculateXPForLevel n + 50 ≤ calculateXPForLevel (n + 1) := by
  have h1 : ¬ (n ≤ 1) := by omega
  have h2 : ¬ (n + 1 ≤ 1) := by omega
  simp only [calculateXPForLevel, if_neg h1, if_neg h2]
  have hn : (2 : ℝ) ≤ (n : ℝ) := by exact_mod_cast h
  have hcast : ((n + 1 : ℕ) : ℝ) - 1 = ((n : ℝ) - 1) + 1 := by push_cast; ring
  rw [hcast]
  have hpow : ((n : ℝ) - 1) ^ (2.2 : ℝ) ≤ (((n : ℝ) - 1) + 1) ^ (2.2 : ℝ) :=
    Real.rpow_le_rpow (by linarith) (by linarith) (by norm_num)
  have hg1 : (0 : ℝ) ≤ ((n : ℝ) - 1) ^ (2.2 : ℝ) * 100 + ((n : ℝ) - 1) * 50 := by
    have := Real.rpow_nonneg (by linarith : (0 : ℝ) ≤ (n : ℝ) - 1) (2.2 : ℝ)
    nlinarith
  have hfa := Nat.floor_add_nat hg1 50
  push_cast at hfa
  have key : ((n : ℝ) - 1) ^ (2.2 : ℝ) * 100 + ((n : ℝ) - 1) * 50 + 50 ≤
      (((n : ℝ) - 1) + 1) ^ (2.2 : ℝ) * 100 + (((n : ℝ) - 1) + 1) * 50 := by
    nlinarith
  calc ⌊((n : ℝ) - 1) ^ (2.2 : ℝ) * 100 + ((n : ℝ) - 1) * 50⌋₊ + 50 =
      ⌊((n : ℝ) - 1) ^ (2.2 : ℝ) * 100 + ((n : ℝ) - 1) * 50 + 50⌋₊ := hfa.symm
    _ ≤ ⌊(((n : ℝ) - 1) + 1) ^ (2.2 : ℝ) * 100 + (((n : ℝ) - 1) + 1) * 50⌋₊ :=
      Nat.floor_le_floor key

/-- C8: the experience curve is strictly increasing -
`calculateXPForLevel (n+1) > calculateXPForLevel n` for every level
`1 ≤ n ≤ 99`. -/
theorem calculateXPForLevel_strict_mono (n : ℕ) (hn1 : 1 ≤ n) (hn99 : n ≤ 99) :
    calculateXPForLevel n < calculateXPForLevel (n + 1) := by
  rcases eq_or_lt_of_le hn1 with h | h
  · have hz : calculateXPForLevel n = 0 := by
      simp [calculateXPForLevel, ← h]
    have := xp_ge_fifty (n + 1) (by omega)
    omega
  · have := xp_step n (by omega)
    omega

/-- The cumulative requirement of level 1 is zero (empty sum). -/
theorem totalXP_one : calculateTotalXPForLevel 1 = 0 := by
  rw [calculateTotalXPForLevel, Finset.Icc_eq_empty (by omega)]
  simp

/-- The cumulative requirement grows by exactly the next level's cost. -/
theorem totalXP_succ (L : ℕ) (h : 1 ≤ L) :
    calculateTotalXPForLevel (L + 1) =
      calculateTotalXPForLevel L + calculateXPForLevel (L + 1) := by
  simp only [calculateTotalXPForLevel]
  rw [Finset.sum_Icc_succ_top (by omega : 2 ≤ L + 1)]

/-- Invariant of the `getLevelFromXP` loop: started at any level with
the matching accumulated total and enough fuel, it returns the largest
level whose cumulative requirement fits in `totalXP`. -/
theorem levelLoop_spec (fuel : ℕ) : ∀ X level acc : ℕ, 1 ≤ level →
    acc = calculateTotalXPForLevel level → acc ≤ X → X < acc + fuel →
    1 ≤ levelLoop fuel X level acc ∧
      calculateTotalXPForLevel (levelLoop fuel X level acc) ≤ X ∧
      X < calculateTotalXPForLevel (levelLoop fuel X level acc + 1) := by
  induction fuel with
  | zero =>
    intro X level acc _ _ h3 h4
    omega
  | succ fuel ih =>
    intro X level acc h1 h2 h3 h4
    simp only [levelLoop]
    rw [if_pos h3]
    by_cases hov : X < acc + calculateXPForLevel (level + 1)
    · rw [if_pos hov]
      refine ⟨h1, ?_, ?_⟩
      · rw [← h2]
        exact h3
      · rw [totalXP_succ level h1, ← h2]
        exact hov
    · rw [if_neg hov]
      push_neg at hov
      have hxp : 50 ≤ calculateXPForLevel (level + 1) := xp_ge_fifty _ (by omega)
      exact ih X (level + 1) (acc + calculateXPForLevel (level + 1)) (by omega)
        (by rw [totalXP_succ level h1, h2]) hov (by omega)

/-- C9: round-trip between total experience and level - for every
`X ≥ 0`, `totalXpForLevel(levelFromXp(X)) ≤ X <
totalXpForLevel(levelFromXp(X) + 1)`, i.e. `getLevelFromXP` returns the
largest level whose cumulative XP requirement does not exceed `X`. -/
theorem getLevelFromXP_round_trip (X : ℕ) :
    calculateTotalXPForLevel (getLevelFromXP X) ≤ X ∧
      X < calculateTotalXPForLevel (getLevelFromXP X + 1) := by
  have h := levelLoop_spec (X + 1) X 1 0 (le_refl 1) totalXP_one.symm (Nat.zero_le X)
    (by omega)
  have hmax : getLevelFromXP X = levelLoop (X + 1) X 1 0 := by
    simp only [getLevelFromXP]
    exact Nat.max_eq_right h.1
  rw [hmax]
  exact ⟨h.2.1, h.2.2⟩

/-- C8 (witness): the strict increase at the concrete level `n = 1`
(`xpForLevel(1) = 0 < xpForLevel(2)`). -/
theorem calculateXPForLevel_strict_mono_witness :
    1 ≤ 1 ∧ 1 ≤ 99 ∧ calculateXPForLevel 1 < calculateXPForLevel 2 :=
  ⟨le_refl 1, by norm_num, calculateXPForLevel_strict_mono 1 (le_refl 1) (by norm_num)⟩
